import Mathlib

/-!
Formal model of the digipick-dashboard data-access layer.

Each definition is a shallow embedding of one function of the TypeScript
source (file and line references in the doc comments).  JavaScript
millisecond timestamps are modelled as integers, JavaScript strings as
Lean strings, rows of the hosted relational store as Lean structures, and
each query-builder pipeline as the predicate it denotes over a list of
rows.  Asynchronous hook state is modelled as explicit state passing.
-/

/-- One JavaScript day in milliseconds: 1000 * 3600 * 24, as used by
dashboard.service.ts line 48 and the device-list day computation. -/
def msPerDay : Int := 86400000

/-- Math.ceil of the real quotient a / b for a positive divisor b,
expressed with Euclidean (floor, for positive b) integer division:
the ceiling of a / b is the negation of the floor of (-a) / b. -/
def jsCeilDiv (a b : Int) : Int := -((-a) / b)

/-- Device row (device.type.ts).  Dates are parsed millisecond timestamps;
a stored YYYY-MM-DD date string parses to the midnight of that day. -/
structure DeviceRow where
  id : String
  company_id : String
  device_name : String
  amc_id : Option String
  mac_address : Option String
  make : Option String
  model : Option String
  archived : Bool
  created_at : Nat
  amc_end_date : Option Int
deriving DecidableEq

/-- Result shape of dashboardService.getAMCStatus (dashboard.type.ts):
daysUntilExpiry is absent on the no-AMC branch. -/
structure AMCStatus where
  isInAMC : Bool
  isExpired : Bool
  isExpiringSoon : Bool
  daysUntilExpiry : Option Int
deriving DecidableEq

/-- dashboardService.getAMCStatus (dashboard.service.ts lines 35-60):
null end date gives the no-AMC record; otherwise
daysDiff = Math.ceil((amcEndDate - now) / msPerDay), with
isExpired = daysDiff < 0, isExpiringSoon = 0 <= daysDiff <= 7,
isInAMC = daysDiff > 0. -/
def getAMCStatus (device : DeviceRow) (now : Int) : AMCStatus :=
  match device.amc_end_date with
  | none =>
      { isInAMC := false, isExpired := false, isExpiringSoon := false
        daysUntilExpiry := none }
  | some amcEnd =>
      let daysDiff := jsCeilDiv (amcEnd - now) msPerDay
      { isInAMC := decide (0 < daysDiff)
        isExpired := decide (daysDiff < 0)
        isExpiringSoon := decide (0 ≤ daysDiff) && decide (daysDiff ≤ 7)
        daysUntilExpiry := some daysDiff }

/-- The four-way AMC classification the UI renders (no AMC / expired /
expiring soon / active). -/
inductive AMCClass where
  | noAMC
  | expired
  | expiringSoon
  | active
deriving DecidableEq

/-- The mutually exclusive classification carried by an AMCStatus record,
read off with the precedence the dashboard views render (expired badge
first, then the expiring-soon badge, active otherwise). -/
def AMCStatus.classify (s : AMCStatus) : AMCClass :=
  match s.daysUntilExpiry with
  | none => .noAMC
  | some _ =>
      if s.isExpired then .expired
      else if s.isExpiringSoon then .expiringSoon
      else .active

/-- The device-list day computation (dashboard device table, lines 182-189
of the component source): null gives null, otherwise
Math.ceil((expiry - now) / msPerDay). -/
def getDaysUntilExpiry (endDate : Option Int) (now : Int) : Option Int :=
  match endDate with
  | none => none
  | some e => some (jsCeilDiv (e - now) msPerDay)

/-- The badge classification of the device list (same component, lines
204-216): null gives No AMC, negative days Expired, days at most 7
Expires soon, otherwise Active. -/
def listBadgeClass (endDate : Option Int) (now : Int) : AMCClass :=
  match getDaysUntilExpiry endDate now with
  | none => .noAMC
  | some d =>
      if d < 0 then .expired
      else if d ≤ 7 then .expiringSoon
      else .active

/-- Device-detail check isAmcExpired (device_component.service.tsx lines
188-191): false on a missing date, otherwise the raw datetime comparison
new Date(amcEndDate) < new Date(). -/
def isAmcExpired (amcEndDate : Option Int) (now : Int) : Bool :=
  match amcEndDate with
  | none => false
  | some e => decide (e < now)

/-- A sample device row used to instantiate theorems at concrete inputs. -/
def mkDevice (name : String) (amc : Option Int) : DeviceRow :=
  { id := "dev-1", company_id := "org-1", device_name := name
    amc_id := none, mac_address := none, make := none, model := none
    archived := false, created_at := 0, amc_end_date := amc }

/-- For a midnight-aligned target k * msPerDay and an offset t inside one
day, the JavaScript ceiling day count collapses to k. -/
theorem jsCeilDiv_day_sub (k t : Int) (h0 : 0 ≤ t) (h1 : t < msPerDay) :
    jsCeilDiv (k * msPerDay - t) msPerDay = k := by
  unfold jsCeilDiv
  have hne : msPerDay ≠ 0 := by unfold msPerDay; omega
  have hrw : -(k * msPerDay - t) = t + -k * msPerDay := by ring
  rw [hrw, Int.add_mul_ediv_right _ _ hne, Int.ediv_eq_zero_of_lt h0 h1]
  ring

/-- The days difference getAMCStatus computes for a midnight-aligned end
date seen from time-of-day t of day d. -/
theorem jsCeilDiv_between_days (e d t : Int) (h0 : 0 ≤ t) (h1 : t < msPerDay) :
    jsCeilDiv (e * msPerDay - (d * msPerDay + t)) msPerDay = e - d := by
  have hrw : e * msPerDay - (d * msPerDay + t) = (e - d) * msPerDay - t := by
    ring
  rw [hrw, jsCeilDiv_day_sub (e - d) t h0 h1]

/-- Evaluation of the derived classification on the record getAMCStatus
builds for a present end date. -/
theorem classify_eval (b1 : Bool) (x : Int) :
    AMCStatus.classify
        ⟨b1, decide (x < 0), decide (0 ≤ x) && decide (x ≤ 7), some x⟩
      = (if x < 0 then AMCClass.expired
         else if x ≤ 7 then AMCClass.expiringSoon else AMCClass.active) := by
  by_cases h1 : x < 0
  · simp [AMCStatus.classify, h1]
  · have h3 : 0 ≤ x := by omega
    by_cases h2 : x ≤ 7
    · simp [AMCStatus.classify, h1, h2, h3]
    · simp [AMCStatus.classify, h1, h2, h3]

/-- C3.  For a device whose AMC end date is the midnight of calendar day e,
observed at any time-of-day t of calendar day d, getAMCStatus reports
daysUntilExpiry = e - d; it is expired exactly when the end day is before
today (e < d), expiring-soon exactly when 0 <= e - d <= 7, and active
exactly when e - d > 7; a null end date classifies as no-AMC.  The claimed
boundaries are the instances e = d (expiring-soon, zero days), e = d + 7
(expiring-soon), e = d + 8 (active) and e = d - 1 (expired). -/
theorem getAMCStatus_classification (dev : DeviceRow) (e d t : Int)
    (hend : dev.amc_end_date = some (e * msPerDay))
    (h0 : 0 ≤ t) (h1 : t < msPerDay) :
    (getAMCStatus dev (d * msPerDay + t)).daysUntilExpiry = some (e - d)
    ∧ ((getAMCStatus dev (d * msPerDay + t)).isExpired = true ↔ e < d)
    ∧ ((getAMCStatus dev (d * msPerDay + t)).isExpiringSoon = true ↔
        (d ≤ e ∧ e ≤ d + 7))
    ∧ ((getAMCStatus dev (d * msPerDay + t)).classify = .expired ↔ e < d)
    ∧ ((getAMCStatus dev (d * msPerDay + t)).classify = .expiringSoon ↔
        (d ≤ e ∧ e ≤ d + 7))
    ∧ ((getAMCStatus dev (d * msPerDay + t)).classify = .active ↔ d + 7 < e)
    ∧ (∀ dn : DeviceRow, dn.amc_end_date = none →
        (getAMCStatus dn (d * msPerDay + t)).classify = .noAMC) := by
  have hdays := jsCeilDiv_between_days e d t h0 h1
  have key : getAMCStatus dev (d * msPerDay + t)
      = ⟨decide (0 < e - d), decide (e - d < 0),
         decide (0 ≤ e - d) && decide (e - d ≤ 7), some (e - d)⟩ := by
    simp only [getAMCStatus, hend, hdays]
  rw [key]
  simp only [classify_eval]
  refine ⟨by trivial, ?_, ?_, ?_, ?_, ?_, ?_⟩
  · simp only [decide_eq_true_eq]; omega
  · simp only [Bool.and_eq_true, decide_eq_true_eq]; omega
  · constructor
    · intro h
      split_ifs at h with hc1 hc2 <;>
        first | omega | exact absurd h (by decide)
    · intro h
      rw [if_pos (show e - d < 0 by omega)]
  · constructor
    · intro h
      split_ifs at h with hc1 hc2 <;>
        first | omega | exact absurd h (by decide)
    · intro h
      rw [if_neg (show ¬ e - d < 0 by omega),
        if_pos (show e - d ≤ 7 by omega)]
  · constructor
    · intro h
      split_ifs at h with hc1 hc2 <;>
        first | omega | exact absurd h (by decide)
    · intro h
      rw [if_neg (show ¬ e - d < 0 by omega),
        if_neg (show ¬ e - d ≤ 7 by omega)]
  · intro dn hdn
    simp [getAMCStatus, hdn, AMCStatus.classify]

/-- C3 witness: day indices e = 10, d = 3 observed at noon; the AMC ends
seven days after today, so the status is expiring-soon with seven days
left. -/
theorem getAMCStatus_classification_witness :
    (mkDevice "Printer" (some (10 * msPerDay))).amc_end_date
        = some (10 * msPerDay)
    ∧ (0 : Int) ≤ 43200000 ∧ (43200000 : Int) < msPerDay
    ∧ ((getAMCStatus (mkDevice "Printer" (some (10 * msPerDay)))
          (3 * msPerDay + 43200000)).daysUntilExpiry = some (10 - 3)
        ∧ ((getAMCStatus (mkDevice "Printer" (some (10 * msPerDay)))
            (3 * msPerDay + 43200000)).isExpired = true ↔ (10 : Int) < 3)
        ∧ ((getAMCStatus (mkDevice "Printer" (some (10 * msPerDay)))
            (3 * msPerDay + 43200000)).isExpiringSoon = true ↔
            ((3 : Int) ≤ 10 ∧ (10 : Int) ≤ 3 + 7))
        ∧ ((getAMCStatus (mkDevice "Printer" (some (10 * msPerDay)))
            (3 * msPerDay + 43200000)).classify = .expired ↔ (10 : Int) < 3)
        ∧ ((getAMCStatus (mkDevice "Printer" (some (10 * msPerDay)))
            (3 * msPerDay + 43200000)).classify = .expiringSoon ↔
            ((3 : Int) ≤ 10 ∧ (10 : Int) ≤ 3 + 7))
        ∧ ((getAMCStatus (mkDevice "Printer" (some (10 * msPerDay)))
            (3 * msPerDay + 43200000)).classify = .active ↔ (3 : Int) + 7 < 10)
        ∧ (∀ dn : DeviceRow, dn.amc_end_date = none →
            (getAMCStatus dn (3 * msPerDay + 43200000)).classify = .noAMC)) :=
  ⟨rfl, by decide, by decide,
    getAMCStatus_classification (mkDevice "Printer" (some (10 * msPerDay)))
      10 3 43200000 rfl (by decide) (by decide)⟩

/-- C2 counterexample: a device whose AMC ends at the midnight opening
calendar day 0, observed at noon of that same day.  The device-detail
isAmcExpired check already reports it expired (raw datetime comparison),
while getAMCStatus and the device-list badge both classify it as
expiring-soon with zero days left: the three duplicated derivations do not
agree, and the detail check does not truncate to calendar days. -/
theorem amc_derivations_disagree_at_noon :
    isAmcExpired (some 0) 43200000 = true
    ∧ (getAMCStatus (mkDevice "Printer" (some 0)) 43200000).isExpired = false
    ∧ (getAMCStatus (mkDevice "Printer" (some 0)) 43200000).classify
        = .expiringSoon
    ∧ listBadgeClass (some 0) 43200000 = .expiringSoon := by decide

/-- C2 amended.  The dashboard derivation getAMCStatus and the device-list
derivation getDaysUntilExpiry use the identical ceiling-of-millisecond
formula and classify every device identically at every instant; for a
midnight-aligned end date the shared formula returns the plain calendar-day
difference, independent of time-of-day.  The device-detail isAmcExpired
check is the odd one out: it compares raw datetimes, and on the
counterexample input (end date at the midnight opening a day, observed at
noon of that day) it reports expired while the other two report
expiring-soon. -/
theorem amc_dashboard_list_agree_detail_differs :
    (∀ (dev : DeviceRow) (now : Int),
      (getAMCStatus dev now).classify = listBadgeClass dev.amc_end_date now)
    ∧ (∀ (e d t : Int), 0 ≤ t → t < msPerDay →
        getDaysUntilExpiry (some (e * msPerDay)) (d * msPerDay + t)
          = some (e - d))
    ∧ (isAmcExpired (some 0) 43200000 = true
        ∧ (getAMCStatus (mkDevice "Printer" (some 0)) 43200000).classify
            = .expiringSoon) := by
  refine ⟨?_, ?_, by decide, by decide⟩
  · intro dev now
    cases hdev : dev.amc_end_date with
    | none =>
        simp [getAMCStatus, hdev, AMCStatus.classify, listBadgeClass,
          getDaysUntilExpiry]
    | some amcEnd =>
        have key : getAMCStatus dev now
            = ⟨decide (0 < jsCeilDiv (amcEnd - now) msPerDay),
               decide (jsCeilDiv (amcEnd - now) msPerDay < 0),
               decide (0 ≤ jsCeilDiv (amcEnd - now) msPerDay) &&
                 decide (jsCeilDiv (amcEnd - now) msPerDay ≤ 7),
               some (jsCeilDiv (amcEnd - now) msPerDay)⟩ := by
          simp only [getAMCStatus, hdev]
        rw [key, classify_eval]
        simp [listBadgeClass, getDaysUntilExpiry]
  · intro e d t h0 h1
    simp [getDaysUntilExpiry, jsCeilDiv_between_days e d t h0 h1]

/-- C2 amended witness: the agreement instantiated on a concrete device at
a concrete instant (end day 10 seen from noon of day 3), the day formula
at the same concrete input, and the concrete detail-check divergence. -/
theorem amc_dashboard_list_agree_detail_differs_witness :
    (getAMCStatus (mkDevice "Printer" (some (10 * msPerDay)))
        (3 * msPerDay + 43200000)).classify
      = listBadgeClass (mkDevice "Printer" (some (10 * msPerDay))).amc_end_date
          (3 * msPerDay + 43200000)
    ∧ ((0 : Int) ≤ 43200000 ∧ (43200000 : Int) < msPerDay
        ∧ getDaysUntilExpiry (some (10 * msPerDay)) (3 * msPerDay + 43200000)
            = some (10 - 3))
    ∧ isAmcExpired (some 0) 43200000 = true :=
  ⟨amc_dashboard_list_agree_detail_differs.1
      (mkDevice "Printer" (some (10 * msPerDay))) (3 * msPerDay + 43200000),
    ⟨by decide, by decide,
      amc_dashboard_list_agree_detail_differs.2.1 10 3 43200000
        (by decide) (by decide)⟩,
    amc_dashboard_list_agree_detail_differs.2.2.1⟩

/-- Truthiness of an optional JavaScript string filter field: absent and
empty strings are falsy, so the corresponding filter is skipped. -/
def whenTruthy (o : Option String) (p : String → Bool) : Bool :=
  match o with
  | none => true
  | some s => if s = "" then true else p s

/-- Lower-cased character data of a string, the normalisation under which
the query layer's ilike patterns match. -/
def lowerChars (s : String) : List Char := s.data.map Char.toLower

/-- Denotation of the query-builder pattern column.ilike.%pat% on a
non-null column: the lower-cased pattern occurs as a contiguous substring
of the lower-cased column value. -/
def ciContains (hay pat : String) : Bool :=
  (lowerChars hay).tails.any (fun t => (lowerChars pat).isPrefixOf t)

/-- The same ilike denotation on a nullable column: a null column matches
no pattern. -/
def ciContainsOpt (hay : Option String) (pat : String) : Bool :=
  match hay with
  | none => false
  | some h => ciContains h pat

/-- Specification-side statement of case-insensitive substring matching. -/
def ciSubstring (pat hay : String) : Prop :=
  lowerChars pat <:+: lowerChars hay

/-- Specification-side matching against a nullable column. -/
def ciSubstringOpt (pat : String) (hay : Option String) : Prop :=
  match hay with
  | none => False
  | some h => ciSubstring pat h

/-- The filter record deviceService reads (device.service.ts): the
declared DeviceFilters fields plus the archived and include_archived
entries the service code consults. -/
structure DeviceFilters where
  search : Option String := none
  device_name : Option String := none
  amc_id : Option String := none
  mac_address : Option String := none
  make : Option String := none
  model : Option String := none
  company_id : Option String := none
  archived : Option Bool := none
  include_archived : Option Bool := none

/-- The archived clause of the device queries (device.service.ts lines
11-18 and 57-64): include_archived truthy drops the clause, an explicit
archived value is matched exactly, and the default keeps only rows with
archived = false. -/
def deviceArchivedPred (f : DeviceFilters) (r : DeviceRow) : Bool :=
  if f.include_archived.getD false then true
  else
    match f.archived with
    | some b => r.archived == b
    | none => r.archived == false

/-- The or-list the device search filter expands to (device.service.ts
lines 21 and 68): device_name, amc_id, mac_address, make, model. -/
def deviceSearchMatch (r : DeviceRow) (s : String) : Bool :=
  ciContains r.device_name s || ciContainsOpt r.amc_id s
    || ciContainsOpt r.mac_address s || ciContainsOpt r.make s
    || ciContainsOpt r.model s

/-- The full row predicate the device list queries denote
(device.service.ts lines 7-46 and 54-87). -/
def devicePred (f : DeviceFilters) (r : DeviceRow) : Bool :=
  deviceArchivedPred f r
    && whenTruthy f.search (deviceSearchMatch r)
    && whenTruthy f.device_name (ciContains r.device_name)
    && whenTruthy f.amc_id (ciContainsOpt r.amc_id)
    && whenTruthy f.mac_address (ciContainsOpt r.mac_address)
    && whenTruthy f.make (ciContainsOpt r.make)
    && whenTruthy f.model (ciContainsOpt r.model)
    && whenTruthy f.company_id (fun c => r.company_id == c)

/-- order by created_at descending, the fixed default ordering of the
list queries. -/
def sortByCreatedAtDesc (l : List DeviceRow) : List DeviceRow :=
  l.mergeSort (fun a b => decide (b.created_at ≤ a.created_at))

/-- deviceService.getAll (device.service.ts lines 7-46): filter the table
by the denoted predicate and order by created_at descending. -/
def deviceGetAll (db : List DeviceRow) (f : DeviceFilters) : List DeviceRow :=
  sortByCreatedAtDesc (db.filter (devicePred f))

/-- The envelope shape both paginated queries return. -/
structure PaginatedResponse (α : Type) where
  data : List α
  totalCount : Nat
  page : Nat
  pageSize : Nat
  totalPages : Nat

/-- JavaScript n-or-default on a numeric option: 0 is falsy. -/
def jsOrDefault (n : Nat) (dflt : Nat) : Nat := if n = 0 then dflt else n

/-- The query-builder range(lo, hi): the rows at indices lo through hi
inclusive. -/
def rangeSlice {α : Type} (l : List α) (lo hi : Nat) : List α :=
  (l.drop lo).take (hi + 1 - lo)

/-- deviceService.getPaginated (device.service.ts lines 48-105):
page and pageSize default to 1 and 20, lo = (page-1)*pageSize,
hi = lo+pageSize-1, the envelope carries the exact filtered count and
totalPages = Math.ceil(totalCount / pageSize). -/
def deviceGetPaginated (db : List DeviceRow) (f : DeviceFilters)
    (page0 pageSize0 : Nat) : PaginatedResponse DeviceRow :=
  let page := jsOrDefault page0 1
  let pageSize := jsOrDefault pageSize0 20
  let lo := (page - 1) * pageSize
  let hi := lo + pageSize - 1
  let rows := sortByCreatedAtDesc (db.filter (devicePred f))
  let totalCount := (db.filter (devicePred f)).length
  { data := rangeSlice rows lo hi
    totalCount := totalCount
    page := page
    pageSize := pageSize
    totalPages := (totalCount + pageSize - 1) / pageSize }

/-- Organization row (organization.type.ts). -/
structure OrgRow where
  id : String
  name : String
  email : Option String
  phone : Option String
  city : Option String
  state : Option String
  country : String
  archived : Bool
  created_at : Nat
deriving DecidableEq

/-- The filter record organizationService reads (organization.type.ts
OrganizationFilters). -/
structure OrgFilters where
  search : Option String := none
  name : Option String := none
  email : Option String := none
  phone : Option String := none
  city : Option String := none
  state : Option String := none
  country : Option String := none
  archived : Option Bool := none

/-- The or-list the organization search filter expands to
(organization service getAll line 646): name, email, phone. -/
def orgSearchMatch (r : OrgRow) (s : String) : Bool :=
  ciContains r.name s || ciContainsOpt r.email s || ciContainsOpt r.phone s

/-- The full row predicate the organization list queries denote
(organization service getAll lines 642-674 and getPaginated lines
676-726).  Note there is no default archived clause: the archived filter
is applied only when the caller sets it. -/
def orgPred (f : OrgFilters) (r : OrgRow) : Bool :=
  whenTruthy f.search (orgSearchMatch r)
    && whenTruthy f.name (ciContains r.name)
    && whenTruthy f.email (ciContainsOpt r.email)
    && whenTruthy f.phone (ciContainsOpt r.phone)
    && whenTruthy f.city (ciContainsOpt r.city)
    && whenTruthy f.state (ciContainsOpt r.state)
    && whenTruthy f.country (fun c => r.country == c)
    && (match f.archived with
        | some b => r.archived == b
        | none => true)

/-- order by created_at descending for organizations. -/
def orgSortByCreatedAtDesc (l : List OrgRow) : List OrgRow :=
  l.mergeSort (fun a b => decide (b.created_at ≤ a.created_at))

/-- organizationService.getAll (organization service lines 642-674). -/
def orgGetAll (db : List OrgRow) (f : OrgFilters) : List OrgRow :=
  orgSortByCreatedAtDesc (db.filter (orgPred f))

/-- organizationService.getPaginated (organization service lines
676-726): identical pagination arithmetic to the device version. -/
def orgGetPaginated (db : List OrgRow) (f : OrgFilters)
    (page0 pageSize0 : Nat) : PaginatedResponse OrgRow :=
  let page := jsOrDefault page0 1
  let pageSize := jsOrDefault pageSize0 20
  let lo := (page - 1) * pageSize
  let hi := lo + pageSize - 1
  let rows := orgSortByCreatedAtDesc (db.filter (orgPred f))
  let totalCount := (db.filter (orgPred f)).length
  { data := rangeSlice rows lo hi
    totalCount := totalCount
    page := page
    pageSize := pageSize
    totalPages := (totalCount + pageSize - 1) / pageSize }

/-- A sample organization row used to instantiate theorems at concrete
inputs. -/
def mkOrg (orgName : String) (arch : Bool) : OrgRow :=
  { id := "org-2", name := orgName, email := none, phone := none
    city := none, state := none, country := "India", archived := arch
    created_at := 0 }

instance (pat hay : String) : Decidable (ciSubstring pat hay) :=
  inferInstanceAs (Decidable (lowerChars pat <:+: lowerChars hay))

instance (pat : String) (hay : Option String) :
    Decidable (ciSubstringOpt pat hay) :=
  match hay with
  | none => isFalse fun h => h
  | some h => inferInstanceAs (Decidable (ciSubstring pat h))

/-- The boolean ilike denotation agrees with the specification-side
case-insensitive substring relation. -/
theorem ciContains_iff (hay pat : String) :
    ciContains hay pat = true ↔ ciSubstring pat hay := by
  simp only [ciContains, ciSubstring, List.any_eq_true, List.mem_tails,
    List.isPrefixOf_iff_prefix, List.infix_iff_prefix_suffix]
  constructor
  · rintro ⟨t, h1, h2⟩
    exact ⟨t, h2, h1⟩
  · rintro ⟨t, h1, h2⟩
    exact ⟨t, h2, h1⟩

/-- The nullable-column ilike denotation agrees with the
specification-side relation. -/
theorem ciContainsOpt_iff (hay : Option String) (pat : String) :
    ciContainsOpt hay pat = true ↔ ciSubstringOpt pat hay := by
  cases hay with
  | none => simp [ciContainsOpt, ciSubstringOpt]
  | some h => simp [ciContainsOpt, ciSubstringOpt, ciContains_iff]

/-- Membership in the device getAll result is membership in the table
together with the denoted predicate. -/
theorem mem_deviceGetAll (db : List DeviceRow) (f : DeviceFilters)
    (r : DeviceRow) :
    r ∈ deviceGetAll db f ↔ r ∈ db ∧ devicePred f r = true := by
  simp [deviceGetAll, sortByCreatedAtDesc, List.mem_mergeSort,
    List.mem_filter]

/-- Membership in the organization getAll result. -/
theorem mem_orgGetAll (db : List OrgRow) (f : OrgFilters) (q : OrgRow) :
    q ∈ orgGetAll db f ↔ q ∈ db ∧ orgPred f q = true := by
  simp [orgGetAll, orgSortByCreatedAtDesc, List.mem_mergeSort,
    List.mem_filter]

/-- A row of a range slice is a row of the underlying list. -/
theorem mem_of_mem_rangeSlice {α : Type} {l : List α} {lo hi : Nat} {a : α}
    (h : a ∈ rangeSlice l lo hi) : a ∈ l :=
  List.mem_of_mem_drop (List.mem_of_mem_take h)

/-- C1 counterexample: organizationService.getAll applies no archived
clause by default, so with an empty filter set it returns a row whose
archived flag is true. -/
theorem org_getAll_returns_archived_by_default :
    mkOrg "Acme" true ∈ orgGetAll [mkOrg "Acme" true] {}
    ∧ (mkOrg "Acme" true).archived = true :=
  ⟨(mem_orgGetAll [mkOrg "Acme" true] {} (mkOrg "Acme" true)).mpr
      (by decide), by decide⟩

/-- C1 amended.  The device module does exclude soft-archived rows by
default: any list call whose filters carry no archived and no
include_archived entry returns only rows with archived = false, for both
getAll and getPaginated.  The organization module applies no default
archived clause: for any filter set with no archived entry, the denoted
row predicate is independent of the archived flag, getAll returns
exactly the table rows matching the remaining criteria whether archived
or not, and getPaginated both counts those rows in totalCount and pages
over exactly them — archived organizations are included throughout. -/
theorem archived_default_per_module (ddb : List DeviceRow)
    (f : DeviceFilters) (r : DeviceRow)
    (ha : f.archived = none) (hi : f.include_archived = none) :
    (r ∈ deviceGetAll ddb f → r.archived = false)
    ∧ (∀ page pageSize : Nat,
        r ∈ (deviceGetPaginated ddb f page pageSize).data →
          r.archived = false)
    ∧ (∀ og : OrgFilters, og.archived = none →
        (∀ (q : OrgRow) (b : Bool),
          orgPred og q = orgPred og { q with archived := b })
        ∧ (∀ (odb : List OrgRow) (q : OrgRow),
            q ∈ orgGetAll odb og ↔ q ∈ odb ∧ orgPred og q = true)
        ∧ (∀ (odb : List OrgRow) (page pageSize : Nat) (q : OrgRow),
            q ∈ (orgGetPaginated odb og page pageSize).data →
              q ∈ odb ∧ orgPred og q = true)
        ∧ (∀ (odb : List OrgRow) (page pageSize : Nat),
            (orgGetPaginated odb og page pageSize).totalCount
              = (odb.filter (orgPred og)).length)) := by
  have hpred : ∀ x : DeviceRow, devicePred f x = true → x.archived = false := by
    intro x hx
    simp only [devicePred, Bool.and_eq_true] at hx
    have harch := hx.1.1.1.1.1.1.1
    simp only [deviceArchivedPred, hi, ha, Option.getD_none] at harch
    simpa [beq_iff_eq] using harch
  refine ⟨?_, ?_, ?_⟩
  · intro hmem
    exact hpred r ((mem_deviceGetAll ddb f r).mp hmem).2
  · intro page pageSize hmem
    simp only [deviceGetPaginated] at hmem
    have hrows := mem_of_mem_rangeSlice hmem
    simp only [sortByCreatedAtDesc, List.mem_mergeSort, List.mem_filter]
      at hrows
    exact hpred r hrows.2
  · intro og hog
    refine ⟨?_, ?_, ?_, ?_⟩
    · intro q b
      cases q with
      | mk idv nm em ph ci st co ar cr =>
          have hsm : orgSearchMatch ⟨idv, nm, em, ph, ci, st, co, ar, cr⟩
              = orgSearchMatch ⟨idv, nm, em, ph, ci, st, co, b, cr⟩ := by
            funext s
            simp only [orgSearchMatch]
          simp only [orgPred, hog, hsm]
    · intro odb q
      exact mem_orgGetAll odb og q
    · intro odb page pageSize q hmem
      simp only [orgGetPaginated] at hmem
      have hrows := mem_of_mem_rangeSlice hmem
      simp only [orgSortByCreatedAtDesc, List.mem_mergeSort,
        List.mem_filter] at hrows
      exact hrows
    · intro odb page pageSize
      rfl

/-- C1 amended witness: the device part at a concrete table with empty
filters, and the organization part at concrete tables containing an
archived row — its predicate is unchanged by flipping the archived flag,
getAll returns it, and a getPaginated page is sound for it. -/
theorem archived_default_per_module_witness :
    ({} : DeviceFilters).archived = none
    ∧ ({} : DeviceFilters).include_archived = none
    ∧ (mkDevice "Printer" none ∈
          deviceGetAll [mkDevice "Printer" none] {} →
        (mkDevice "Printer" none).archived = false)
    ∧ ({} : OrgFilters).archived = none
    ∧ orgPred {} (mkOrg "Beta" false)
        = orgPred {} { mkOrg "Beta" false with archived := true }
    ∧ (mkOrg "Acme" true ∈ orgGetAll [mkOrg "Acme" true, mkOrg "Beta" false] {}
        ↔ mkOrg "Acme" true ∈ [mkOrg "Acme" true, mkOrg "Beta" false]
            ∧ orgPred {} (mkOrg "Acme" true) = true)
    ∧ (mkOrg "Acme" true ∈ (orgGetPaginated [mkOrg "Acme" true] {} 1 20).data →
        mkOrg "Acme" true ∈ [mkOrg "Acme" true]
          ∧ orgPred {} (mkOrg "Acme" true) = true)
    ∧ (orgGetPaginated [mkOrg "Acme" true] {} 1 20).totalCount
        = ([mkOrg "Acme" true].filter (orgPred {})).length :=
  ⟨rfl, rfl,
    (archived_default_per_module [mkDevice "Printer" none] {}
      (mkDevice "Printer" none) rfl rfl).1,
    rfl,
    ((archived_default_per_module [] {} (mkDevice "Printer" none)
        rfl rfl).2.2 {} rfl).1 (mkOrg "Beta" false) true,
    ((archived_default_per_module [] {} (mkDevice "Printer" none)
        rfl rfl).2.2 {} rfl).2.1
      [mkOrg "Acme" true, mkOrg "Beta" false] (mkOrg "Acme" true),
    ((archived_default_per_module [] {} (mkDevice "Printer" none)
        rfl rfl).2.2 {} rfl).2.2.1
      [mkOrg "Acme" true] 1 20 (mkOrg "Acme" true),
    ((archived_default_per_module [] {} (mkDevice "Printer" none)
        rfl rfl).2.2 {} rfl).2.2.2
      [mkOrg "Acme" true] 1 20⟩

/-- The padded-numerator form of the ceiling: for a positive page size,
totalPages * pageSize is the least multiple of pageSize reaching
totalCount. -/
theorem ceil_bounds (c s : Nat) (hs : 1 ≤ s) :
    c ≤ ((c + s - 1) / s) * s ∧ ((c + s - 1) / s) * s < c + s := by
  have hdm := Nat.div_add_mod (c + s - 1) s
  have hlt : (c + s - 1) % s < s := Nat.mod_lt _ hs
  set q := (c + s - 1) / s with hq
  set r := (c + s - 1) % s with hr
  have hval : s * q = c + s - 1 - r := by omega
  have hcomm : q * s = s * q := Nat.mul_comm q s
  constructor <;> omega

/-- Length of the inclusive range slice the paginated queries request. -/
theorem rangeSlice_length {α : Type} (l : List α) (lo ps : Nat)
    (hs : 1 ≤ ps) :
    (rangeSlice l lo (lo + ps - 1)).length = min ps (l.length - lo) := by
  simp only [rangeSlice, List.length_take, List.length_drop, inf_eq_min]
  omega

/-- C4.  For any page >= 1 and pageSize >= 1, both paginated queries echo
page and pageSize, return totalPages = ceil(totalCount / pageSize)
(stated as: totalPages * pageSize is the least multiple of pageSize at
least totalCount), and return exactly
min(pageSize, totalCount - (page-1)*pageSize) rows, the truncated
subtraction clipping the count at zero past the last page. -/
theorem paginated_envelope_arithmetic (ddb : List DeviceRow)
    (df : DeviceFilters) (odb : List OrgRow) (og : OrgFilters)
    (page pageSize : Nat) (hp : 1 ≤ page) (hs : 1 ≤ pageSize) :
    ((deviceGetPaginated ddb df page pageSize).page = page
      ∧ (deviceGetPaginated ddb df page pageSize).pageSize = pageSize
      ∧ (deviceGetPaginated ddb df page pageSize).totalCount ≤
          (deviceGetPaginated ddb df page pageSize).totalPages * pageSize
      ∧ (deviceGetPaginated ddb df page pageSize).totalPages * pageSize <
          (deviceGetPaginated ddb df page pageSize).totalCount + pageSize
      ∧ (deviceGetPaginated ddb df page pageSize).data.length =
          min pageSize
            ((deviceGetPaginated ddb df page pageSize).totalCount -
              (page - 1) * pageSize))
    ∧ ((orgGetPaginated odb og page pageSize).page = page
      ∧ (orgGetPaginated odb og page pageSize).pageSize = pageSize
      ∧ (orgGetPaginated odb og page pageSize).totalCount ≤
          (orgGetPaginated odb og page pageSize).totalPages * pageSize
      ∧ (orgGetPaginated odb og page pageSize).totalPages * pageSize <
          (orgGetPaginated odb og page pageSize).totalCount + pageSize
      ∧ (orgGetPaginated odb og page pageSize).data.length =
          min pageSize
            ((orgGetPaginated odb og page pageSize).totalCount -
              (page - 1) * pageSize)) := by
  have hp1 : jsOrDefault page 1 = page := by
    unfold jsOrDefault; rw [if_neg (by omega)]
  have hs20 : jsOrDefault pageSize 20 = pageSize := by
    unfold jsOrDefault; rw [if_neg (by omega)]
  constructor
  · simp only [deviceGetPaginated, hp1, hs20]
    refine ⟨by trivial, by trivial, (ceil_bounds _ pageSize hs).1,
      (ceil_bounds _ pageSize hs).2, ?_⟩
    rw [rangeSlice_length _ _ pageSize hs]
    simp [sortByCreatedAtDesc, List.length_mergeSort]
  · simp only [orgGetPaginated, hp1, hs20]
    refine ⟨by trivial, by trivial, (ceil_bounds _ pageSize hs).1,
      (ceil_bounds _ pageSize hs).2, ?_⟩
    rw [rangeSlice_length _ _ pageSize hs]
    simp [orgSortByCreatedAtDesc, List.length_mergeSort]

/-- C7.  With a non-empty search string s, a device row is returned by
getAll exactly when it is an unarchived table row one of whose five
searched text columns (device_name, amc_id, mac_address, make, model)
contains s case-insensitively as a contiguous substring; every row of a
getPaginated page satisfies the same property.  A null text column never
matches. -/
theorem device_search_ci_substring (db : List DeviceRow) (s : String)
    (r : DeviceRow) (hs : s ≠ "") :
    (r ∈ deviceGetAll db { search := some s } ↔
      (r ∈ db ∧ r.archived = false
        ∧ (ciSubstring s r.device_name ∨ ciSubstringOpt s r.amc_id
            ∨ ciSubstringOpt s r.mac_address ∨ ciSubstringOpt s r.make
            ∨ ciSubstringOpt s r.model)))
    ∧ (∀ page pageSize : Nat,
        r ∈ (deviceGetPaginated db { search := some s } page pageSize).data →
          (r ∈ db ∧ r.archived = false
            ∧ (ciSubstring s r.device_name ∨ ciSubstringOpt s r.amc_id
                ∨ ciSubstringOpt s r.mac_address ∨ ciSubstringOpt s r.make
                ∨ ciSubstringOpt s r.model))) := by
  have hpred : ∀ x : DeviceRow,
      devicePred { search := some s } x = true ↔
        (x.archived = false
          ∧ (ciSubstring s x.device_name ∨ ciSubstringOpt s x.amc_id
              ∨ ciSubstringOpt s x.mac_address ∨ ciSubstringOpt s x.make
              ∨ ciSubstringOpt s x.model)) := by
    intro x
    simp [devicePred, deviceArchivedPred, whenTruthy, hs, deviceSearchMatch,
      Bool.and_eq_true, Bool.or_eq_true, ciContains_iff, ciContainsOpt_iff,
      beq_iff_eq, and_assoc, or_assoc]
  constructor
  · rw [mem_deviceGetAll]
    constructor
    · rintro ⟨hmem, hp⟩
      exact ⟨hmem, (hpred r).mp hp⟩
    · rintro ⟨hmem, hp⟩
      exact ⟨hmem, (hpred r).mpr hp⟩
  · intro page pageSize hmem
    simp only [deviceGetPaginated] at hmem
    have hrows := mem_of_mem_rangeSlice hmem
    simp only [sortByCreatedAtDesc, List.mem_mergeSort, List.mem_filter]
      at hrows
    exact ⟨hrows.1, (hpred r).mp hrows.2⟩

/-- C7 witness: searching "abc" returns the device named "ABCDEF" — the
match is case-insensitive and on a partial substring. -/
theorem device_search_ci_substring_witness :
    ("abc" : String) ≠ ""
    ∧ mkDevice "ABCDEF" none ∈
        deviceGetAll [mkDevice "ABCDEF" none] { search := some "abc" } :=
  ⟨by decide,
    (device_search_ci_substring [mkDevice "ABCDEF" none] "abc"
        (mkDevice "ABCDEF" none) (by decide)).1.mpr
      ⟨by decide, by decide, Or.inl (by decide)⟩⟩

/-- Civil timestamp: a UTC calendar date plus the millisecond of the day.
For valid civil datetimes, chronological order coincides with the
lexicographic order on (year, month, day, millisecond), which is how the
stored timestamptz comparisons are modelled. -/
structure Ts where
  y : Nat
  m : Nat
  d : Nat
  ms : Nat
deriving DecidableEq

/-- Strict chronological (lexicographic) order on civil timestamps. -/
def Ts.Lt (a b : Ts) : Prop :=
  a.y < b.y ∨ (a.y = b.y ∧ (a.m < b.m ∨ (a.m = b.m ∧
    (a.d < b.d ∨ (a.d = b.d ∧ a.ms < b.ms)))))

instance (a b : Ts) : Decidable (Ts.Lt a b) := by
  unfold Ts.Lt; infer_instance

/-- Service request row (service_request.type.ts, service_request.sql):
ticket_no is unique, date_of_request defaults to the insertion instant. -/
structure SRRow where
  ticket_no : String
  organization_id : String
  device_id : String
  date_of_request : Ts
deriving DecidableEq

/-- padStart(width, the zero character) on a string. -/
def padZeros (width : Nat) (s : String) : String :=
  if width ≤ s.length then s
  else ⟨List.replicate (width - s.length) (Char.ofNat 48) ++ s.data⟩

/-- slice(0, 4).toUpperCase() applied to an id, at the level of its
character data. -/
def upper4 (idStr : String) : String :=
  ⟨(idStr.data.take 4).map Char.toUpper⟩

/-- slice(0, 4) of an id unchanged, as the claim words first4. -/
def first4 (idStr : String) : String :=
  ⟨idStr.data.take 4⟩

/-- The YYYY-MM-DD prefix of a ticket: getFullYear, getMonth()+1 and
getDate zero-padded to two digits, dash-joined. -/
def ymdPrefix (now : Ts) : String :=
  Nat.repr now.y ++ "-" ++ padZeros 2 (Nat.repr now.m) ++ "-"
    ++ padZeros 2 (Nat.repr now.d)

/-- The gte bound of the count query: todayT00:00:00.000Z. -/
def dayWindowStart (t : Ts) : Ts := ⟨t.y, t.m, t.d, 0⟩

/-- The lt bound of the count query: todayT23:59:59.999Z, which is the
last millisecond of the day — the bound is exclusive, so that millisecond
itself is not counted. -/
def dayWindowEnd (t : Ts) : Ts := ⟨t.y, t.m, t.d, 86399999⟩

/-- The head count query of generateTicketNumber: rows whose
date_of_request is at least todayT00:00:00.000Z and strictly before
todayT23:59:59.999Z. -/
def sameDayWindowCount (db : List SRRow) (now : Ts) : Nat :=
  db.countP (fun r =>
    decide (¬ Ts.Lt r.date_of_request (dayWindowStart now))
      && decide (Ts.Lt r.date_of_request (dayWindowEnd now)))

/-- ServiceRequestService.generateTicketNumber (service request service
lines 252-272): date prefix, uppercased four-character organization and
device codes, and the window count plus one zero-padded to four digits. -/
def generateTicketNumber (db : List SRRow) (organizationId deviceId : String)
    (now : Ts) : String :=
  ymdPrefix now ++ "-" ++ upper4 organizationId ++ "-" ++ upper4 deviceId
    ++ "-" ++ padZeros 4 (Nat.repr (sameDayWindowCount db now + 1))

/-- The ticket format exactly as the claim words it: first4 takes the
first four characters of the respective id unchanged, and seq counts the
requests created on the same calendar day. -/
def claimTicketNumber (db : List SRRow) (organizationId deviceId : String)
    (now : Ts) : String :=
  ymdPrefix now ++ "-" ++ first4 organizationId ++ "-" ++ first4 deviceId
    ++ "-" ++ padZeros 4 (Nat.repr
        ((db.countP (fun r =>
            decide (r.date_of_request.y = now.y
              ∧ r.date_of_request.m = now.m
              ∧ r.date_of_request.d = now.d))) + 1))

/-- The same-calendar-day count with the final millisecond of the day
excluded, which is what the implemented window denotes. -/
def sameDayCountExceptLastMs (db : List SRRow) (now : Ts) : Nat :=
  db.countP (fun r =>
    decide (r.date_of_request.y = now.y ∧ r.date_of_request.m = now.m
      ∧ r.date_of_request.d = now.d ∧ r.date_of_request.ms < 86399999))

/-- The gte/lt pair of the count query denotes exactly: same calendar day
and strictly before the final millisecond of that day. -/
theorem window_iff (now r : Ts) :
    ((¬ Ts.Lt r (dayWindowStart now)) ∧ Ts.Lt r (dayWindowEnd now)) ↔
      (r.y = now.y ∧ r.m = now.m ∧ r.d = now.d ∧ r.ms < 86399999) := by
  unfold Ts.Lt dayWindowStart dayWindowEnd
  simp only
  omega

/-- The implemented window count equals the same-calendar-day count with
the last millisecond excluded. -/
theorem sameDayWindowCount_eq (db : List SRRow) (now : Ts) :
    sameDayWindowCount db now = sameDayCountExceptLastMs db now := by
  unfold sameDayWindowCount sameDayCountExceptLastMs
  apply List.countP_congr
  intro r _
  have h := window_iff now r.date_of_request
  by_cases hw : (¬ Ts.Lt r.date_of_request (dayWindowStart now))
      ∧ Ts.Lt r.date_of_request (dayWindowEnd now)
  · have hr := h.mp hw
    simp [hw.1, hw.2, hr]
  · have hr : ¬ (r.date_of_request.y = now.y ∧ r.date_of_request.m = now.m
        ∧ r.date_of_request.d = now.d ∧ r.date_of_request.ms < 86399999) :=
      fun hc => hw (h.mpr hc)
    rcases Decidable.not_and_iff_or_not.mp hw with hw1 | hw2
    · simp [Decidable.not_not.mp hw1, hr]
    · simp [hw2, hr]

/-- C5 counterexample: with an empty table on 2024-01-15, organization id
abcd1111 and device id efgh2222, the generated ticket is
2024-01-15-ABCD-EFGH-0001 — the four-character codes are uppercased — and
not the claimed 2024-01-15-abcd-efgh-0001 built from the first four id
characters unchanged. -/
theorem ticket_number_uppercases_id_codes :
    generateTicketNumber [] "abcd1111" "efgh2222" ⟨2024, 1, 15, 0⟩
        = "2024-01-15-ABCD-EFGH-0001"
    ∧ claimTicketNumber [] "abcd1111" "efgh2222" ⟨2024, 1, 15, 0⟩
        = "2024-01-15-abcd-efgh-0001"
    ∧ generateTicketNumber [] "abcd1111" "efgh2222" ⟨2024, 1, 15, 0⟩
        ≠ claimTicketNumber [] "abcd1111" "efgh2222" ⟨2024, 1, 15, 0⟩ := by
  refine ⟨by decide, by decide, by decide⟩

/-- C5 amended.  The generated ticket number is
YYYY-MM-DD-ORG4-DEV4-SEQ4 where ORG4 and DEV4 are the first four
characters of the organization and device ids uppercased, and SEQ4 is
zero-padded to four digits from one plus the count of existing requests
whose date_of_request falls on that calendar day strictly before its
final millisecond (the implemented lt bound excludes the instant
23:59:59.999). -/
theorem ticket_number_format_amended (db : List SRRow)
    (organizationId deviceId : String) (now : Ts) :
    generateTicketNumber db organizationId deviceId now =
      ymdPrefix now ++ "-" ++ String.mk ((first4 organizationId).data.map Char.toUpper)
        ++ "-" ++ String.mk ((first4 deviceId).data.map Char.toUpper) ++ "-"
        ++ padZeros 4 (Nat.repr (sameDayCountExceptLastMs db now + 1)) := by
  unfold generateTicketNumber upper4 first4
  rw [sameDayWindowCount_eq]

/-- A single insert into service_requests under the schema constraint
service_requests_ticket_no_key unique (ticket_no)
(sql/service_request.sql line 23): a duplicate ticket number makes the
statement fail and createServiceRequest throw; otherwise the row is
appended with date_of_request stamped to the insertion instant by the
column default. -/
def insertServiceRequest (db : List SRRow) (row : SRRow) :
    Except String (List SRRow) :=
  if db.any (fun r => r.ticket_no == row.ticket_no) then
    Except.error "duplicate key value violates unique constraint"
  else
    Except.ok (db ++ [row])

/-- ServiceRequestService.createServiceRequest (service request service
lines 102-127): generate the ticket number against the current table,
then insert the new row; on an insert error the call throws. -/
def createServiceRequest (db : List SRRow)
    (organizationId deviceId : String) (now : Ts) :
    Except String (SRRow × List SRRow) :=
  let ticketNo := generateTicketNumber db organizationId deviceId now
  let row : SRRow :=
    { ticket_no := ticketNo, organization_id := organizationId
      device_id := deviceId, date_of_request := now }
  match insertServiceRequest db row with
  | .error e => .error e
  | .ok db2 => .ok (row, db2)

/-- C6.  Two service requests created sequentially — the second
generation's count query runs only after the first insert completed —
receive distinct ticket numbers whenever both creations succeed: the
second generation counts the first row whenever it falls inside the day
window, advancing the sequence number, and in the remaining corner the
unique ticket_no constraint rejects the second insert, so two created
rows can never carry the same ticket.  This holds for any organizations
and devices, including different organizations within the same
millisecond of the same calendar day. -/
theorem sequential_creates_distinct_tickets (db : List SRRow)
    (o1 d1 o2 d2 : String) (t1 t2 : Ts) (r1 r2 : SRRow)
    (db1 db2 : List SRRow)
    (h1 : createServiceRequest db o1 d1 t1 = .ok (r1, db1))
    (h2 : createServiceRequest db1 o2 d2 t2 = .ok (r2, db2)) :
    r1.ticket_no ≠ r2.ticket_no := by
  unfold createServiceRequest insertServiceRequest at h1 h2
  by_cases hc1 : (db.any (fun r =>
      r.ticket_no == generateTicketNumber db o1 d1 t1)) = true
  · simp [hc1] at h1
  · simp [hc1] at h1
    obtain ⟨hr1, hdb1⟩ := h1
    by_cases hc2 : (db1.any (fun r =>
        r.ticket_no == generateTicketNumber db1 o2 d2 t2)) = true
    · simp [hc2] at h2
    · simp [hc2] at h2
      obtain ⟨hr2, hdb2⟩ := h2
      have hc2f : (db1.any (fun r =>
          r.ticket_no == generateTicketNumber db1 o2 d2 t2)) = false :=
        Bool.eq_false_iff.mpr hc2
      have hmem : r1 ∈ db1 := by
        rw [← hdb1]
        exact List.mem_append_right db (by simp [← hr1])
      have hall : (r1.ticket_no == generateTicketNumber db1 o2 d2 t2)
          = false := by
        have := List.any_eq_false.mp hc2f r1 hmem
        simpa using this
      intro heq
      have hr2t : r2.ticket_no = generateTicketNumber db1 o2 d2 t2 := by
        rw [← hr2]
      have htrue : (r1.ticket_no == generateTicketNumber db1 o2 d2 t2)
          = true := beq_iff_eq.mpr (heq.trans hr2t)
      rw [hall] at htrue
      exact Bool.false_ne_true htrue

/-- C6 witness: two requests created sequentially within the same
millisecond of 2024-01-15 for different organizations receive the
distinct tickets 2024-01-15-ORG1-DEV1-0001 and 2024-01-15-ORG2-DEV2-0002. -/
theorem sequential_creates_distinct_tickets_witness :
    createServiceRequest [] "org1aaaa" "dev1aaaa" ⟨2024, 1, 15, 0⟩
        = .ok (⟨"2024-01-15-ORG1-DEV1-0001", "org1aaaa", "dev1aaaa",
                ⟨2024, 1, 15, 0⟩⟩,
               [⟨"2024-01-15-ORG1-DEV1-0001", "org1aaaa", "dev1aaaa",
                ⟨2024, 1, 15, 0⟩⟩])
    ∧ createServiceRequest
          [⟨"2024-01-15-ORG1-DEV1-0001", "org1aaaa", "dev1aaaa",
            ⟨2024, 1, 15, 0⟩⟩]
          "org2bbbb" "dev2bbbb" ⟨2024, 1, 15, 0⟩
        = .ok (⟨"2024-01-15-ORG2-DEV2-0002", "org2bbbb", "dev2bbbb",
                ⟨2024, 1, 15, 0⟩⟩,
               [⟨"2024-01-15-ORG1-DEV1-0001", "org1aaaa", "dev1aaaa",
                 ⟨2024, 1, 15, 0⟩⟩,
                ⟨"2024-01-15-ORG2-DEV2-0002", "org2bbbb", "dev2bbbb",
                 ⟨2024, 1, 15, 0⟩⟩])
    ∧ (⟨"2024-01-15-ORG1-DEV1-0001", "org1aaaa", "dev1aaaa",
          ⟨2024, 1, 15, 0⟩⟩ : SRRow).ticket_no
        ≠ (⟨"2024-01-15-ORG2-DEV2-0002", "org2bbbb", "dev2bbbb",
            ⟨2024, 1, 15, 0⟩⟩ : SRRow).ticket_no :=
  ⟨rfl, rfl,
    sequential_creates_distinct_tickets [] "org1aaaa" "dev1aaaa"
      "org2bbbb" "dev2bbbb" ⟨2024, 1, 15, 0⟩ ⟨2024, 1, 15, 0⟩
      ⟨"2024-01-15-ORG1-DEV1-0001", "org1aaaa", "dev1aaaa",
        ⟨2024, 1, 15, 0⟩⟩
      ⟨"2024-01-15-ORG2-DEV2-0002", "org2bbbb", "dev2bbbb",
        ⟨2024, 1, 15, 0⟩⟩
      [⟨"2024-01-15-ORG1-DEV1-0001", "org1aaaa", "dev1aaaa",
        ⟨2024, 1, 15, 0⟩⟩]
      [⟨"2024-01-15-ORG1-DEV1-0001", "org1aaaa", "dev1aaaa",
        ⟨2024, 1, 15, 0⟩⟩,
       ⟨"2024-01-15-ORG2-DEV2-0002", "org2bbbb", "dev2bbbb",
        ⟨2024, 1, 15, 0⟩⟩]
      rfl rfl⟩

/-- Component-local state a fetch hook owns: the last stored data, the
loading flag and the error message state. -/
structure HookState (α : Type) where
  data : α
  loading : Bool
  error : Option String

/-- One complete run of useOrganizations.fetchOrganizations
(organization hooks lines 129-140): setLoading(true) and setError(null),
one call into organizationService.getAll whose outcome is given, data
stored on success, the message stored on failure leaving data untouched,
loading cleared in finally.  The second component counts the query-layer
calls the run performs. -/
def runUseOrganizationsFetch (s : HookState (List OrgRow))
    (outcome : Except String (List OrgRow)) :
    HookState (List OrgRow) × Nat :=
  match outcome with
  | .ok v => ({ data := v, loading := false, error := none }, 1)
  | .error m => ({ data := s.data, loading := false, error := some m }, 1)

/-- One complete run of useServiceRequests.fetchServiceRequests
(service request hooks lines 29-43): identical shape over the paginated
envelope. -/
def runUseServiceRequestsFetch (s : HookState (PaginatedResponse SRRow))
    (outcome : Except String (PaginatedResponse SRRow)) :
    HookState (PaginatedResponse SRRow) × Nat :=
  match outcome with
  | .ok v => ({ data := v, loading := false, error := none }, 1)
  | .error m => ({ data := s.data, loading := false, error := some m }, 1)

/-- C8.  When the query layer throws, both fetch hooks store the error
message in their error state, leave the previously fetched data
unchanged, and clear loading; every run of a fetch performs exactly one
query-layer call whatever the outcome, so a failed fetch is never
retried — only invoking the fetch again (the exposed manual refetch)
makes another call. -/
theorem fetch_hook_error_semantics :
    (∀ (s : HookState (List OrgRow)) (m : String),
      (runUseOrganizationsFetch s (.error m)).1.data = s.data
        ∧ (runUseOrganizationsFetch s (.error m)).1.error = some m
        ∧ (runUseOrganizationsFetch s (.error m)).1.loading = false)
    ∧ (∀ (s : HookState (List OrgRow))
        (o : Except String (List OrgRow)),
        (runUseOrganizationsFetch s o).2 = 1)
    ∧ (∀ (s : HookState (PaginatedResponse SRRow)) (m : String),
        (runUseServiceRequestsFetch s (.error m)).1.data = s.data
          ∧ (runUseServiceRequestsFetch s (.error m)).1.error = some m
          ∧ (runUseServiceRequestsFetch s (.error m)).1.loading = false)
    ∧ (∀ (s : HookState (PaginatedResponse SRRow))
        (o : Except String (PaginatedResponse SRRow)),
        (runUseServiceRequestsFetch s o).2 = 1) := by
  refine ⟨fun s m => ⟨rfl, rfl, rfl⟩, fun s o => ?_,
    fun s m => ⟨rfl, rfl, rfl⟩, fun s o => ?_⟩
  · cases o <;> rfl
  · cases o <;> rfl

/-- State of usePaginatedOrganizations (organization hooks lines
154-220): the controller currently held by abortControllerRef, the set
of controllers that have been aborted, and the hook's data, error and
loading state.  The stored data is abstracted to the identifier of the
response that produced it. -/
structure PagHookState where
  current : Option Nat
  aborted : List Nat
  data : Option Nat
  error : Option String
  loading : Bool
deriving DecidableEq

/-- Initial hook state: no controller yet, nothing fetched. -/
def pagInit : PagHookState :=
  { current := none, aborted := [], data := none, error := none
    loading := false }

/-- Entry of fetchOrganizations with a fresh controller k (lines
173-184): abort the previous controller when there is one, install the
fresh controller, set loading and clear the error. -/
def pagStart (s : PagHookState) (k : Nat) : PagHookState :=
  { current := some k
    aborted := match s.current with
      | some c => c :: s.aborted
      | none => s.aborted
    data := s.data
    error := none
    loading := true }

/-- The guard the completion handlers evaluate (lines 189, 193, 197): it
reads abortControllerRef.current — the controller currently installed —
and asks whether that controller has been aborted; it does not consult
the controller of the request the arriving response belongs to. -/
def pagRefAborted (s : PagHookState) : Bool :=
  match s.current with
  | some c => s.aborted.contains c
  | none => false

/-- Arrival of the successful response of the request started with
controller k (lines 186-191 and the finally block): the response id v is
stored and loading cleared unless the guard holds.  k is ignored by the
code — that is the point. -/
def pagComplete (s : PagHookState) (_k v : Nat) : PagHookState :=
  if pagRefAborted s then s
  else { s with data := some v, loading := false }

/-- Arrival of the failure of the request started with controller k
(lines 192-199): the message is stored and loading cleared unless the
guard holds. -/
def pagFail (s : PagHookState) (_k : Nat) (m : String) : PagHookState :=
  if pagRefAborted s then s
  else { s with error := some m, loading := false }

/-- The effect cleanup (lines 207-211): abort the installed controller
without replacing it. -/
def pagCleanup (s : PagHookState) : PagHookState :=
  { s with aborted := match s.current with
      | some c => c :: s.aborted
      | none => s.aborted }

/-- C9.  A trace refuting the cancellation guard: request 1 starts, then
request 2 starts, aborting controller 1 — so request 1 has been
cancelled — yet when the stale response of request 1 arrives, the guard
reads the newly installed controller 2, which is not aborted, and the
cancelled request's response is written into the hook data, overwriting
state a newer request owns.  After the same trace the late failure of
request 1 likewise records its error message. -/
theorem stale_response_overwrites_state :
    (1 ∈ (pagStart (pagStart pagInit 1) 2).aborted
      ∧ (pagStart (pagStart pagInit 1) 2).data = none)
    ∧ (pagComplete (pagStart (pagStart pagInit 1) 2) 1 42).data = some 42
    ∧ (pagFail (pagStart (pagStart pagInit 1) 2) 1 "boom").error
        = some "boom" := by decide

/-- Error record of the query client: the code a response reports and
its message. -/
structure PGError where
  code : String
  message : String
deriving DecidableEq

/-- deviceService.getById (device.service.ts lines 107-119): a single-row
response either holds a row or an error; the no-matching-row code
PGRST116 becomes a null result, any other error is rethrown, a found row
is returned as is. -/
def deviceGetById (resp : Except PGError DeviceRow) :
    Except PGError (Option DeviceRow) :=
  match resp with
  | .error e => if e.code = "PGRST116" then .ok none else .error e
  | .ok row => .ok (some row)

/-- organizationService.getById (organization service lines 728-740):
the identical handling. -/
def organizationGetById (resp : Except PGError OrgRow) :
    Except PGError (Option OrgRow) :=
  match resp with
  | .error e => if e.code = "PGRST116" then .ok none else .error e
  | .ok row => .ok (some row)

/-- C10.  Both getById wrappers return null exactly on a backend error
with code PGRST116, propagate an error by throwing exactly when the
backend reports any other error, and return a found row unchanged. -/
theorem getById_error_semantics :
    (∀ resp : Except PGError DeviceRow,
      (deviceGetById resp = .ok none ↔
          ∃ e, resp = .error e ∧ e.code = "PGRST116")
        ∧ (∀ e, deviceGetById resp = .error e ↔
            (resp = .error e ∧ e.code ≠ "PGRST116"))
        ∧ (∀ row, deviceGetById resp = .ok (some row) ↔ resp = .ok row))
    ∧ (∀ resp : Except PGError OrgRow,
      (organizationGetById resp = .ok none ↔
          ∃ e, resp = .error e ∧ e.code = "PGRST116")
        ∧ (∀ e, organizationGetById resp = .error e ↔
            (resp = .error e ∧ e.code ≠ "PGRST116"))
        ∧ (∀ row, organizationGetById resp = .ok (some row) ↔
            resp = .ok row)) := by
  constructor
  · intro resp
    rcases resp with e | row
    · by_cases hc : e.code = "PGRST116" <;>
        simp [deviceGetById, hc]
    · simp [deviceGetById]
  · intro resp
    rcases resp with e | row
    · by_cases hc : e.code = "PGRST116" <;>
        simp [organizationGetById, hc]
    · simp [organizationGetById]

/-- A table of 25 identical unarchived devices, the example seed of the
pagination claim. -/
def sampleDeviceTable : List DeviceRow :=
  List.replicate 25 (mkDevice "Printer" none)

/-- C4 witness: the envelope arithmetic instantiated on 25 seeded devices
with page 1 and pageSize 20, and on an empty organization table. -/
theorem paginated_envelope_arithmetic_witness :
    ((1 : Nat) ≤ 1 ∧ (1 : Nat) ≤ 20)
    ∧ (((deviceGetPaginated sampleDeviceTable {} 1 20).page = 1
      ∧ (deviceGetPaginated sampleDeviceTable {} 1 20).pageSize = 20
      ∧ (deviceGetPaginated sampleDeviceTable {} 1 20).totalCount ≤
          (deviceGetPaginated sampleDeviceTable {} 1 20).totalPages * 20
      ∧ (deviceGetPaginated sampleDeviceTable {} 1 20).totalPages * 20 <
          (deviceGetPaginated sampleDeviceTable {} 1 20).totalCount + 20
      ∧ (deviceGetPaginated sampleDeviceTable {} 1 20).data.length =
          min 20
            ((deviceGetPaginated sampleDeviceTable {} 1 20).totalCount -
              (1 - 1) * 20))
    ∧ ((orgGetPaginated [] {} 1 20).page = 1
      ∧ (orgGetPaginated [] {} 1 20).pageSize = 20
      ∧ (orgGetPaginated [] {} 1 20).totalCount ≤
          (orgGetPaginated [] {} 1 20).totalPages * 20
      ∧ (orgGetPaginated [] {} 1 20).totalPages * 20 <
          (orgGetPaginated [] {} 1 20).totalCount + 20
      ∧ (orgGetPaginated [] {} 1 20).data.length =
          min 20
            ((orgGetPaginated [] {} 1 20).totalCount - (1 - 1) * 20))) :=
  ⟨⟨by decide, by decide⟩,
    paginated_envelope_arithmetic sampleDeviceTable {} [] {} 1 20
      (by decide) (by decide)⟩
